import Mathlib

/-!
Shallow embedding of `src/main.rs` from the repository
`rust_book_chapter_18`, a script that demonstrates Rust pattern
matching by printing a fixed sequence of text to standard output.

Output is modelled as a list of emitted chunks (strings); `println!`
emits its text followed by a newline, `print!` emits the text alone.
Rust `isize`/`i32` values appearing here are small and never overflow,
so they are modelled as `Int` (with Rust's truncated `%` as `Int.tmod`).
`Option<T>` is `Option`, `Result<isize, String>` is `Except String Int`,
and a Rust `String` buffer is its list of characters.
-/

/-- Output chunk of a Rust `println!`: the text plus a trailing newline. -/
def rustPrintln (s : String) : String := s ++ "\n"

/-- Output chunk of a Rust `print!`: the text alone, no newline. -/
def rustPrint (s : String) : String := s

/-- Whether an emitted chunk is newline-terminated. -/
def endsWithNewline (s : String) : Bool := s.data.getLast? == some '\n'

/-- The `Triangle` struct (main.rs lines 123-126). -/
structure Triangle where
  base : Int
  height : Int
  deriving DecidableEq

/-- The `Screen` struct (main.rs lines 153-158). -/
structure Screen where
  size : Int
  x : Int
  y : Int
  t : Triangle
  deriving DecidableEq

/-- The exhaustive `match` on `my_val` (main.rs lines 20-23). -/
def matchMyVal : Option Int → String
  | some x => rustPrintln ("number: " ++ toString x)
  | none => rustPrintln "None"

/-- The `if let` / `else if let` / `else` chain (main.rs lines 28-39):
first checks `if let None = my_val`, then `else if let Ok(age) = age`
(printing by comparison with 20), then the final `else`. -/
def ifLetChain (myVal : Option Int) (age : Except String Int) : String :=
  match myVal with
  | none => rustPrintln "my_val was None"
  | some _ =>
    match age with
    | Except.ok a => if a > 20 then rustPrintln "age > 20" else rustPrintln "age <= 20"
    | Except.error _ => rustPrintln "No conditions reached"

/-- Rust `String::pop`: removes and returns the last character of the
buffer, or `none` when the buffer is empty. -/
def strPop : List Char → Option (Char × List Char)
  | [] => none
  | [c] => some (c, [])
  | c :: cs =>
    match strPop cs with
    | some (d, rest) => some (d, c :: rest)
    | none => none

/-- One step at a time, the `while let Some(c) = name.pop()` loop
(main.rs lines 45-47): returns the extracted characters in extraction
order together with the final buffer.  The fuel argument only bounds
recursion depth; one `pop` removes one character, so a fuel equal to the
buffer length is always enough. -/
def whileLetPopFuel : Nat → List Char → List Char × List Char
  | 0, cs => ([], cs)
  | fuel + 1, cs =>
    match strPop cs with
    | none => ([], cs)
    | some (c, rest) =>
      let r := whileLetPopFuel fuel rest
      (c :: r.1, r.2)

/-- The `while let` drain of a text buffer (main.rs lines 45-47). -/
def whileLetPop (cs : List Char) : List Char × List Char :=
  whileLetPopFuel cs.length cs

/-- Chunks printed by the `while let` loop body, one per iteration. -/
def drainOutput (cs : List Char) : List String :=
  (whileLetPop cs).1.map (fun c => rustPrintln ("c: " ++ toString c))

/-- The index-character pairs of `name.chars().enumerate()`
(main.rs line 53). -/
def forLoopPairs (cs : List Char) : List (Nat × Char) := cs.enum

/-- Chunks printed by the `for (i, c) in name.chars().enumerate()`
loop (main.rs lines 53-55). -/
def forLoopOutput (cs : List Char) : List String :=
  (forLoopPairs cs).map
    (fun p => rustPrintln ("i: " ++ toString p.1 ++ " c: " ++ toString p.2))

/-- The `let (x, y, z) = ('a', 'b', 'c')` destructuring and its print
(main.rs lines 60-62). -/
def letTupleChunk : String :=
  let (x, y, z) := ('a', 'b', 'c')
  rustPrintln ("x: " ++ toString x ++ " y: " ++ toString y ++ " z: " ++ toString z)

/-- The nested fn `printing_stuff(&(a, b): &(char, char))`
(main.rs lines 65-67). -/
def printing_stuff (p : Char × Char) : String :=
  let (a, b) := p
  rustPrintln ("printing_stuff(" ++ toString a ++ ", " ++ toString b ++ ")")

/-- Characters of the buffer built by Rust from the literal "name". -/
def nameChars : List Char := ['n', 'a', 'm', 'e']

/-- Chunks of `all_places_patterns_can_be_used` (main.rs lines 14-71). -/
def all_places_patterns_can_be_used : List String :=
  [matchMyVal (some 5), ifLetChain (some 5) (Except.ok 5)]
    ++ drainOutput nameChars
    ++ forLoopOutput nameChars
    ++ [letTupleChunk, printing_stuff ('a', 'b')]

/-- Chunks of `refutability_whether_a_pattern_might_fail_to_match`
(main.rs lines 73-93): the function prints nothing. -/
def refutability_whether_a_pattern_might_fail_to_match : List String := []

/-- Literal string match (main.rs lines 101-106). -/
def matchStrLit (x : String) : String :=
  match x with
  | "hello" => rustPrintln "\x27hello\x27 found"
  | "world" => rustPrintln "\x27world\x27 found"
  | "rust" => rustPrintln "\x27rust\x27 found"
  | _ => rustPrintln "unknown value found"

/-- Multiple-pattern string match (main.rs lines 109-112). -/
def matchStrMulti (x : String) : String :=
  match x with
  | "hello" | "world" | "rust" => rustPrintln ("\x27" ++ x ++ "\x27 found")
  | _ => rustPrintln "unknown value found"

/-- Character range match (main.rs lines 117-121). -/
def matchCharRange (y : Char) : String :=
  if 'a' ≤ y ∧ y ≤ 'd' then rustPrintln "a-d"
  else if 'e' ≤ y ∧ y ≤ 'h' then rustPrintln "e-h"
  else rustPrintln "unknown"

/-- Chunk printed after the `let Triangle { base: b, height: h }`
destructuring (main.rs lines 136-141). -/
def destructureTriangleChunk (t : Triangle) : String :=
  let b := t.base
  let h := t.height
  rustPrintln ("base: " ++ toString b ++ " height: " ++ toString h)

/-- Struct match on `triangle` (main.rs lines 146-151): branches in
listed order, first match wins.  The second and third branches use
`print!` (no newline); the others use `println!`. -/
def matchTriangle (t : Triangle) : String :=
  if t.base = 12 ∧ t.height = 15 then rustPrintln "12 15 triangle"
  else if t.base = 5 ∧ t.height = 10 then rustPrint "5 10 triangle"
  else if t.base = 8 then rustPrint ("8 " ++ toString t.height ++ " triangle")
  else rustPrintln "other triangle"

/-- Index (0-based, in listed order) of the branch the struct match
(main.rs lines 146-151) selects: 0 for base 12 / height 15, 1 for
base 5 / height 10, 2 for base 8, 3 for the catch-all. -/
def matchTriangleBranch (t : Triangle) : Nat :=
  if t.base = 12 ∧ t.height = 15 then 0
  else if t.base = 5 ∧ t.height = 10 then 1
  else if t.base = 8 then 2
  else 3

/-- Nested struct match on `screen` (main.rs lines 169-172). -/
def matchScreen (s : Screen) : String :=
  if s.size = 10 ∧ s.x = 0 ∧ s.y = 0 then
    rustPrintln ("matching screen found " ++ toString s.t.base ++ " " ++ toString s.t.height)
  else rustPrintln "no matching screen found"

/-- The wildcard let `let (_, y) = p` performed with an earlier binding
`x` in scope (main.rs line 180): only `y` is rebound, `x` keeps its
earlier value. -/
def wildcardRebind (x : Int) (p : Int × Int) : Int × Int :=
  let (_, y) := p
  (x, y)

/-- The two tuple-destructuring lets and their prints
(main.rs lines 175-182): `let (x, y) = (4, 5)`, print, then
`let (_, y) = (3, 2)` which shadows only `y`, then print again. -/
def tupleLetChunks : List String :=
  let (x, y) := ((4 : Int), (5 : Int))
  let c1 := rustPrintln (toString x ++ " " ++ toString y)
  let (_, y) := ((3 : Int), (2 : Int))
  let c2 := rustPrintln (toString x ++ " " ++ toString y)
  [c1, c2]

/-- Joint match on the pair `(x, y)` of options (main.rs lines 187-190). -/
def matchPair (x y : Option Int) : String :=
  match x, y with
  | some _, some _ => rustPrintln "both x and y and `Some`"
  | _, _ => rustPrintln "either x or y is `None`"

/-- Index of the branch the joint pair match (main.rs lines 187-190)
selects: 0 for the both-present branch, 1 for the fallback. -/
def matchPairBranch (x y : Option Int) : Nat :=
  match x, y with
  | some _, some _ => 0
  | _, _ => 1

/-- The `Screen { size, .. }` match (main.rs lines 198-200). -/
def matchScreenSize (s : Screen) : String :=
  rustPrintln ("size is " ++ toString s.size)

/-- The `(first, .., last)` match on a 4-tuple (main.rs lines 204-207). -/
def matchTuple4 (t : Int × Int × Int × Int) : String :=
  let (first, _, _, last) := t
  rustPrintln ("vals are " ++ toString first ++ " " ++ toString last)

/-- The match guard example (main.rs lines 213-217): the guard
`a % 2 == 1` (Rust truncated remainder, `Int.tmod`) is consulted only
in the `Some(a)` branch; when it fails evaluation falls through to
`Some(_)`; `None` takes the last branch. -/
def matchGuard (x : Option Int) : String :=
  match x with
  | some a =>
    if Int.tmod a 2 = 1 then rustPrintln "Some x is odd"
    else rustPrintln "Some x is even"
  | none => rustPrintln "None"

/-- The `@`-binding range match (main.rs lines 226-229): the first
branch matches when `base` lies in `5..=10`, binding it (as `b`) for
use in the branch body together with `height` (as `h`). -/
def matchAtBind (t : Triangle) : String :=
  if 5 ≤ t.base ∧ t.base ≤ 10 then
    let b := t.base
    let h := t.height
    rustPrintln ("base: " ++ toString b ++ " height: " ++ toString h)
  else rustPrintln "no triangle found"

/-- Index of the branch the `@`-binding range match
(main.rs lines 226-229) selects: 0 for the range branch, 1 for the
catch-all. -/
def matchAtBindBranch (t : Triangle) : Nat :=
  if 5 ≤ t.base ∧ t.base ≤ 10 then 0 else 1

/-- Chunks of `pattern_syntax` (main.rs lines 95-231), in source
order; `let _a = 5` prints nothing. -/
def pattern_syntax : List String :=
  let x := "hello"
  let triangle : Triangle := ⟨5, 10⟩
  let screen : Screen := ⟨10, 0, 0, triangle⟩
  [matchStrLit x, matchStrMulti x, matchCharRange 'c',
    destructureTriangleChunk triangle, matchTriangle triangle, matchScreen screen]
    ++ tupleLetChunks
    ++ [matchPair (some 5) (some 7), matchScreenSize screen,
      matchTuple4 (4, 5, 6, 7), matchGuard (some 5), matchAtBind ⟨5, 10⟩]

/-- The whole program (main.rs lines 2-12): the three routines run in
order, and the emitted chunks are their outputs concatenated.  The
program takes no input, so this list is the output of every run. -/
def main_output : List String :=
  all_places_patterns_can_be_used
    ++ refutability_whether_a_pattern_might_fail_to_match
    ++ pattern_syntax

/-- Claim C1, counterexample: the claim says every emitted chunk is
newline-terminated, but the chunk "5 10 triangle" — emitted by the
`print!` in the second branch of the struct match, the branch the
program's fixed triangle takes — is in the output and does not end in
a newline. -/
theorem C1_not_all_chunks_newline_terminated :
    "5 10 triangle" ∈ main_output ∧ endsWithNewline "5 10 triangle" = false := by
  decide

/-- Claim C1 (amended): the program, invoked with no inputs, emits on
every run the same fixed, ordered sequence of 25 text chunks and
terminates normally after the last routine; every chunk is
newline-terminated except the struct-match chunk "5 10 triangle",
which is emitted by `print!` without a trailing newline. -/
theorem C1_fixed_output_sequence :
    main_output =
      ["number: 5\n", "age <= 20\n", "c: e\n", "c: m\n", "c: a\n", "c: n\n",
        "i: 0 c: n\n", "i: 1 c: a\n", "i: 2 c: m\n", "i: 3 c: e\n",
        "x: a y: b z: c\n", "printing_stuff(a, b)\n",
        "\x27hello\x27 found\n", "\x27hello\x27 found\n", "a-d\n",
        "base: 5 height: 10\n", "5 10 triangle", "matching screen found 5 10\n",
        "4 5\n", "4 2\n", "both x and y and `Some`\n", "size is 10\n",
        "vals are 4 7\n", "Some x is odd\n", "base: 5 height: 10\n"] ∧
    (main_output.all fun s => s == "5 10 triangle" || endsWithNewline s) = true := by
  constructor
  · decide
  · decide

/-- Claim C2: the `while let` loop started on the buffer "name"
extracts the characters in reverse order e, m, a, n, printing one
chunk per iteration, and terminates after exactly 4 iterations with
the buffer empty. -/
theorem C2_while_let_drain :
    whileLetPop nameChars = (['e', 'm', 'a', 'n'], []) ∧
    (whileLetPop nameChars).1.length = 4 ∧
    drainOutput nameChars = ["c: e\n", "c: m\n", "c: a\n", "c: n\n"] := by
  refine ⟨by decide, by decide, by decide⟩

/-- Claim C3: applied to the triangle with base 5 and height 10, the
struct match selects branch 1 in listed order — the branch specific to
(base 5, height 10) — not branch 0, not the later base-8 branch 2, and
not the catch-all branch 3; its `print!` chunk is "5 10 triangle". -/
theorem C3_triangle_match_selects_5_10_branch :
    matchTriangleBranch ⟨5, 10⟩ = 1 ∧
    matchTriangle ⟨5, 10⟩ = "5 10 triangle" ∧
    matchTriangle ⟨5, 10⟩ ≠ rustPrintln "other triangle" := by
  refine ⟨by decide, by decide, by decide⟩

/-- Claim C4: on the fixed value `Some 5` (odd) the guarded branch
fires, printing the odd message rather than the unconditioned
`Some(_)` branch; for every contained value the result is decided by
the guard (odd goes to the guarded branch, guard failure falls through
to the `Some(_)` branch), and `None` reaches the last branch without
the guard being consulted. -/
theorem C4_match_guard :
    matchGuard (some 5) = rustPrintln "Some x is odd" ∧
    (∀ a : Int, matchGuard (some a) =
      if Int.tmod a 2 = 1 then rustPrintln "Some x is odd"
      else rustPrintln "Some x is even") ∧
    matchGuard none = rustPrintln "None" := by
  refine ⟨by decide, ?_, rfl⟩
  intro a
  by_cases h : Int.tmod a 2 = 1
  · simp [matchGuard, h]
  · simp [matchGuard, h]

/-- Claim C5: on a triangle whose base is 7 (inside 5..=10) the
`@`-binding range match binds the field for use in the branch body
(its value 7 appears in the printed chunk) and selects the range
branch, not the catch-all; and for every triangle the range branch is
selected exactly when the base lies in 5..=10. -/
theorem C5_at_binding_range_match :
    matchAtBind ⟨7, 10⟩ = "base: 7 height: 10\n" ∧
    matchAtBindBranch ⟨7, 10⟩ = 0 ∧
    (∀ t : Triangle, matchAtBindBranch t = 0 ↔ 5 ≤ t.base ∧ t.base ≤ 10) := by
  refine ⟨by decide, by decide, ?_⟩
  intro t
  by_cases h : 5 ≤ t.base ∧ t.base ≤ 10
  · simp [matchAtBindBranch, h]
  · simp [matchAtBindBranch, h]

/-- Claim C6: the `if let` chain checks `None` on the option first,
falls back to the `Ok` check on the result value, and otherwise takes
the default branch; on the fixed inputs `Some 5` and `Ok 5` the second
check succeeds and the age-at-most-20 message is printed. -/
theorem C6_if_let_chain_first_match_order :
    ifLetChain (some 5) (Except.ok 5) = "age <= 20\n" ∧
    (∀ age : Except String Int, ifLetChain none age = rustPrintln "my_val was None") ∧
    (∀ (v a : Int), ifLetChain (some v) (Except.ok a) =
      if a > 20 then rustPrintln "age > 20" else rustPrintln "age <= 20") ∧
    (∀ (v : Int) (e : String), ifLetChain (some v) (Except.error e) =
      rustPrintln "No conditions reached") := by
  refine ⟨by decide, fun age => rfl, fun v a => rfl, fun v e => rfl⟩

/-- Claim C7: the exhaustive match on the option prints the number
branch with the contained value — "number: 5" for the fixed input
`Some 5` — and the not-present message for `None`; for every option
one of the two branches is taken. -/
theorem C7_exhaustive_option_match :
    matchMyVal (some 5) = "number: 5\n" ∧
    matchMyVal none = "None\n" ∧
    (∀ v : Option Int,
      (∃ n, v = some n ∧ matchMyVal v = rustPrintln ("number: " ++ toString n)) ∨
      (v = none ∧ matchMyVal v = rustPrintln "None")) := by
  refine ⟨by decide, by decide, ?_⟩
  intro v
  cases v with
  | none => exact Or.inr ⟨rfl, rfl⟩
  | some n => exact Or.inl ⟨n, rfl, rfl⟩

/-- Claim C8: in the joint match on the pair of options the first
branch applies exactly when both components are present; the fixed
pair (Some 5, Some 7) takes the both-present branch, and every pair
with at least one absent component takes the fallback. -/
theorem C8_joint_pair_match :
    matchPair (some 5) (some 7) = rustPrintln "both x and y and `Some`" ∧
    matchPairBranch (some 5) (some 7) = 0 ∧
    (∀ x y : Option Int, matchPairBranch x y = 0 ↔ x ≠ none ∧ y ≠ none) ∧
    (∀ x y : Option Int, matchPairBranch x y = 1 ↔ x = none ∨ y = none) := by
  refine ⟨rfl, rfl, ?_, ?_⟩
  · intro x y
    cases x <;> cases y <;> simp [matchPairBranch]
  · intro x y
    cases x <;> cases y <;> simp [matchPairBranch]

/-- Claim C9: indexed iteration over the characters of "name" yields
exactly the pairs (0, n), (1, a), (2, m), (3, e) in that order,
printing one line per pair. -/
theorem C9_enumerate_name :
    forLoopPairs nameChars = [(0, 'n'), (1, 'a'), (2, 'm'), (3, 'e')] ∧
    forLoopOutput nameChars =
      ["i: 0 c: n\n", "i: 1 c: a\n", "i: 2 c: m\n", "i: 3 c: e\n"] := by
  refine ⟨by decide, by decide⟩

/-- Claim C10: the wildcard destructuring `let (_, y) = (3, 2)`
rebinds only `y` (to 2) and leaves the earlier binding of `x` (4 from
the preceding tuple let) unchanged, so the program prints "4 5" and
then "4 2"; in general the wildcard let keeps the previous first
binding and takes only the second component of the new pair. -/
theorem C10_wildcard_let_frame :
    tupleLetChunks = ["4 5\n", "4 2\n"] ∧
    (∀ (x : Int) (p : Int × Int), wildcardRebind x p = (x, p.2)) := by
  refine ⟨by decide, ?_⟩
  intro x p
  cases p
  rfl
